/-
Verification of the MegEngine tensor dispatch layer and quantized dtype
subsystem (imperative/python/megengine/core/tensor/{array_method,dtype}.py),
as a shallow embedding in Lean 4.

Modelling conventions:
- Python floats are modelled as rationals (ℚ); `np.round` is round-half-to-even
  (banker's rounding), modelled by `roundHalfEven`.
- A NumPy dtype object carrying quantization metadata is modelled by `NpDtype`:
  the `metadata["mgb_dtype"]` dict becomes an `Option MgbDtypeMetadata`.
- Fallible Python functions (raising ValueError / TypeError / AssertionError /
  KeyError) are modelled with `Except String`.
- NumPy arrays are modelled as lists of their elements; the final
  `.astype(dtype)` cast of an already-clipped integer array is the identity on
  the stored values and is modelled as such.
-/
import Mathlib

namespace MegEngine

/-! ## dtype.py: quantized dtype registry -/

/-- Embeds class `QuantDtypeMeta` (dtype.py): metadata record for a quantized
dtype.  `cname` is `Option` because the catalog stores `None` for the 2-bit
entries. -/
structure QuantDtypeMeta where
  name : String
  cname : Option String
  np_dtype_str : String
  qmin : ℤ
  qmax : ℤ
  is_unsigned : Bool
  deriving DecidableEq, Repr

/-- Embeds `QuantDtypeMeta.__new__` with `is_unsigned=None`: the sign is
derived from the leading character of `np_dtype_str`
(`is_unsigned = np_dtype_str[0] == "u"`).  All catalog entries use this
default. -/
def QuantDtypeMeta.make (name : String) (cname : Option String)
    (np_dtype_str : String) (qmin qmax : ℤ) : QuantDtypeMeta :=
  { name := name, cname := cname, np_dtype_str := np_dtype_str,
    qmin := qmin, qmax := qmax, is_unsigned := np_dtype_str.front = 'u' }

/-- `_builtin_quant_dtypes["quint8"]`. -/
def quint8Meta : QuantDtypeMeta :=
  QuantDtypeMeta.make "quint8" (some "Quantized8Asymm") "uint8" 0 255

/-- `_builtin_quant_dtypes["qint8"]`. -/
def qint8Meta : QuantDtypeMeta :=
  QuantDtypeMeta.make "qint8" (some "QuantizedS8") "int8" (-128) 127

/-- `_builtin_quant_dtypes["qint8_narrow"]`: same `cname` ("QuantizedS8") and
storage as `qint8`, but the narrower range [-127, 127]. -/
def qint8_narrowMeta : QuantDtypeMeta :=
  QuantDtypeMeta.make "qint8_narrow" (some "QuantizedS8") "int8" (-127) 127

/-- `_builtin_quant_dtypes["quint4"]`. -/
def quint4Meta : QuantDtypeMeta :=
  QuantDtypeMeta.make "quint4" (some "Quantized4Asymm") "uint8" 0 15

/-- `_builtin_quant_dtypes["qint4"]`. -/
def qint4Meta : QuantDtypeMeta :=
  QuantDtypeMeta.make "qint4" (some "QuantizedS4") "int8" (-8) 7

/-- `_builtin_quant_dtypes["qint1"]`. -/
def qint1Meta : QuantDtypeMeta :=
  QuantDtypeMeta.make "qint1" (some "QuantizedS1") "int8" 0 1

/-- `_builtin_quant_dtypes["qint32"]`. -/
def qint32Meta : QuantDtypeMeta :=
  QuantDtypeMeta.make "qint32" (some "QuantizedS32") "int32" (-(2 ^ 31)) (2 ^ 31 - 1)

/-- `_builtin_quant_dtypes["quint2"]` (no cname: dump unsupported). -/
def quint2Meta : QuantDtypeMeta :=
  QuantDtypeMeta.make "quint2" none "uint8" 0 3

/-- `_builtin_quant_dtypes["qint2"]` (no cname: dump unsupported). -/
def qint2Meta : QuantDtypeMeta :=
  QuantDtypeMeta.make "qint2" none "int8" (-2) 1

/-- The `_builtin_quant_dtypes` catalog as an association list. -/
def _builtin_quant_dtypes : List (String × QuantDtypeMeta) :=
  [("quint8", quint8Meta), ("qint8", qint8Meta), ("qint8_narrow", qint8_narrowMeta),
   ("quint4", quint4Meta), ("qint4", qint4Meta), ("qint1", qint1Meta),
   ("qint32", qint32Meta), ("quint2", quint2Meta), ("qint2", qint2Meta)]

/-- The `metadata["mgb_dtype"]` dict stamped on a quantized numpy dtype:
`{"name": cname, "scale": float, "zero_point"?: int}`. -/
structure MgbDtypeMetadata where
  name : String
  scale : ℚ
  zero_point : Option ℤ
  deriving DecidableEq, Repr

/-- A numpy dtype object as consumed here: its base storage name and the
optional `mgb_dtype` metadata dict. -/
structure NpDtype where
  np_dtype_str : String
  metadata : Option MgbDtypeMetadata
  deriving DecidableEq, Repr

/-- Modelled from the spec: `is_quantize` comes from `_imperative_rt.common`
(not under src/); per the spec a conversion "validates ... that `target_type`
is a quantized type", i.e. the dtype carries stamped `mgb_dtype` metadata. -/
def is_quantize (d : NpDtype) : Bool :=
  d.metadata.isSome

/-- Embeds `_check_zero_point` (dtype.py lines 103-111): range check of an
integer zero point against the descriptor's `[qmin, qmax]`. -/
def _check_zero_point (zp : ℤ) (dtype_meta : QuantDtypeMeta) : Except String Unit :=
  if zp < dtype_meta.qmin ∨ zp > dtype_meta.qmax then
    Except.error ("zero_point should be within [" ++ toString dtype_meta.qmin ++
      ", " ++ toString dtype_meta.qmax ++ "] for " ++ dtype_meta.name)
  else
    Except.ok ()

/-- Embeds `create_quantized_dtype` (dtype.py lines 114-152).
The zero point argument is an arbitrary number (`Option ℚ`); Python's
`int(zp) != zp` integrality test becomes `z.den = 1`.  Note the signed branch
returns successfully whatever `zp` is, never storing a zero point. -/
def create_quantized_dtype (dtype_meta : QuantDtypeMeta) (scale : ℚ)
    (zp : Option ℚ) : Except String NpDtype :=
  match dtype_meta.cname with
  | none => Except.error "dtype {} without cname attr is not supported."
  | some cn =>
    if dtype_meta.is_unsigned then
      match zp with
      | none => Except.error "zero_point should be an integer"
      | some z =>
        if z.den ≠ 1 then Except.error "zero_point should be an integer"
        else
          match _check_zero_point z.num dtype_meta with
          | Except.error e => Except.error e
          | Except.ok _ =>
            Except.ok ⟨dtype_meta.np_dtype_str, some ⟨cn, scale, some z.num⟩⟩
    else
      Except.ok ⟨dtype_meta.np_dtype_str, some ⟨cn, scale, none⟩⟩

/-- Embeds the convenience constructor `quint8(scale, zero_point)`. -/
def quint8 (scale : ℚ) (zero_point : Option ℚ) : Except String NpDtype :=
  create_quantized_dtype quint8Meta scale zero_point

/-- Embeds the convenience constructor `qint8(scale)`. -/
def qint8 (scale : ℚ) : Except String NpDtype :=
  create_quantized_dtype qint8Meta scale none

/-- `np.round`: round half to even (banker's rounding) on rationals. -/
def roundHalfEven (q : ℚ) : ℤ :=
  let f : ℤ := ⌊q⌋
  let frac : ℚ := q - f
  if frac < 1 / 2 then f
  else if frac > 1 / 2 then f + 1
  else if f % 2 = 0 then f else f + 1

/-- `np.ndarray.clip(lo, hi)` on one element: `min (max x lo) hi`. -/
def clip (x lo hi : ℤ) : ℤ :=
  min (max x lo) hi

/-- Embeds `_convert_to_quantized_dtype` (dtype.py lines 199-225): validate
the target dtype's stamped name against the descriptor's `cname`, then apply
`round(arr/scale) (+ zp)`, clip to the DESCRIPTOR's `[qmin, qmax]`, cast. -/
def _convert_to_quantized_dtype (arr : List ℚ) (dtype : NpDtype)
    (dtype_meta : QuantDtypeMeta) : Except String (List ℤ) :=
  -- `not is_quantize(dtype)` is exactly `dtype.metadata = none` in this model
  match dtype.metadata with
  | none => Except.error ("dtype parameter should be a " ++ dtype_meta.name ++ " dtype")
  | some md =>
      if some md.name ≠ dtype_meta.cname then
        Except.error ("dtype parameter should be a " ++ dtype_meta.name ++ " dtype")
      else if dtype_meta.is_unsigned then
        match md.zero_point with
        | none => Except.error "KeyError: zero_point"
        | some zp =>
          Except.ok (arr.map fun v =>
            clip (roundHalfEven (v / md.scale) + zp) dtype_meta.qmin dtype_meta.qmax)
      else
        Except.ok (arr.map fun v =>
          clip (roundHalfEven (v / md.scale)) dtype_meta.qmin dtype_meta.qmax)

/-- Embeds `_convert_from_quantized_dtype` (dtype.py lines 228-246): the
quantized array is a list of stored integers together with its dtype
(`arr.dtype`); dequantize as `(v - zp) * scale` (unsigned) or `v * scale`
(signed). -/
def _convert_from_quantized_dtype (arr : List ℤ) (arrDtype : NpDtype)
    (dtype_meta : QuantDtypeMeta) : Except String (List ℚ) :=
  -- `not is_quantize(arr.dtype)` is exactly `arrDtype.metadata = none` here
  match arrDtype.metadata with
  | none => Except.error ("arr dtype should be a " ++ dtype_meta.name ++ " dtype")
  | some md =>
      if some md.name ≠ dtype_meta.cname then
        Except.error ("arr dtype should be a " ++ dtype_meta.name ++ " dtype")
      else if dtype_meta.is_unsigned then
        match md.zero_point with
        | none => Except.error "KeyError: zero_point"
        | some zp =>
          Except.ok (arr.map fun v => ((v : ℚ) - (zp : ℚ)) * md.scale)
      else
        Except.ok (arr.map fun v => (v : ℚ) * md.scale)

/-- Embeds `convert_to_quint8(arr, q)`. -/
def convert_to_quint8 (arr : List ℚ) (q : NpDtype) : Except String (List ℤ) :=
  _convert_to_quantized_dtype arr q quint8Meta

/-- Embeds `convert_from_quint8(arr)`; the array's dtype is passed alongside. -/
def convert_from_quint8 (arr : List ℤ) (arrDtype : NpDtype) : Except String (List ℚ) :=
  _convert_from_quantized_dtype arr arrDtype quint8Meta

/-- Embeds `convert_to_qint8(arr, q)`. -/
def convert_to_qint8 (arr : List ℚ) (q : NpDtype) : Except String (List ℤ) :=
  _convert_to_quantized_dtype arr q qint8Meta

/-- Embeds `convert_from_qint8(arr)`; the array's dtype is passed alongside. -/
def convert_from_qint8 (arr : List ℤ) (arrDtype : NpDtype) : Except String (List ℚ) :=
  _convert_from_quantized_dtype arr arrDtype qint8Meta

/-! ## array_method.py: matmul dispatch -/

/-- The three dispatch targets of `_matmul` (array_method.py lines 306-370):
the `builtin.Dot` primitive, the plain `MatrixMul` path (`matmul_cpp` /
`symbolicMatrixMul`) and the `BatchedMatrixMul` path (`batched_matmul_cpp` /
`symbolicBatchedMatrixMul`). -/
inductive MatmulPath where
  | dot
  | matrixMul
  | batchedMatrixMul
  deriving DecidableEq, Repr

/-- Embeds the dispatch decision of `_matmul`: with `dim1, dim2` the operand
ranks, `maxdim = dim1 if dim1 > dim2 else dim2`, the code takes the `Dot`
branch when `dim1 == 1 and dim2 == 1`, the `MatrixMul` branch when
`maxdim <= 2 or (dim2 <= 2 and not transpose_a)`, else `BatchedMatrixMul`.
`transpose_b` is carried through to the primitives but never inspected by the
dispatch itself. -/
def _matmul_dispatch (dim1 dim2 : ℕ) (transpose_a transpose_b : Bool) : MatmulPath :=
  let maxdim : ℕ := if dim1 > dim2 then dim1 else dim2
  if dim1 = 1 ∧ dim2 = 1 then MatmulPath.dot
  else if maxdim ≤ 2 ∨ (dim2 ≤ 2 ∧ transpose_a = false) then MatmulPath.matrixMul
  else MatmulPath.batchedMatrixMul

/-! ## array_method.py: elementwise dispatch, comparisons, logical operators -/

/-- The `builtin.Elemwise.Mode` values used by the claims under study. -/
inductive ElwMod where
  | LT
  | LEQ
  | EQ
  | NOT
  | AND
  | OR
  | XOR
  deriving DecidableEq, Repr

/-- How Python formats the enum member in `"{} requires ..."` messages. -/
def ElwMod.fmt : ElwMod → String
  | ElwMod.LT => "Elemwise.Mode.LT"
  | ElwMod.LEQ => "Elemwise.Mode.LEQ"
  | ElwMod.EQ => "Elemwise.Mode.EQ"
  | ElwMod.NOT => "Elemwise.Mode.NOT"
  | ElwMod.AND => "Elemwise.Mode.AND"
  | ElwMod.OR => "Elemwise.Mode.OR"
  | ElwMod.XOR => "Elemwise.Mode.XOR"

/-- A tensor as consumed by the operator-overload layer: a dtype tag and the
(flattened) element data.  Logical values are stored numerically, `0`/`1`. -/
structure Tensor where
  dtype : String
  data : List ℚ
  deriving DecidableEq, Repr

/-- Per-element semantics of the binary `Elemwise` modes (result `0`/`1`). -/
def ElwMod.sem2 : ElwMod → ℚ → ℚ → ℚ
  | ElwMod.LT, x, y => if x < y then 1 else 0
  | ElwMod.LEQ, x, y => if x ≤ y then 1 else 0
  | ElwMod.EQ, x, y => if x = y then 1 else 0
  | ElwMod.AND, x, y => if x ≠ 0 ∧ y ≠ 0 then 1 else 0
  | ElwMod.OR, x, y => if x ≠ 0 ∨ y ≠ 0 then 1 else 0
  | ElwMod.XOR, x, y => if (x ≠ 0) ≠ (y ≠ 0) then 1 else 0
  | _, _, _ => 0

/-- Per-element semantics of the unary `Elemwise` modes used here. -/
def ElwMod.sem1 : ElwMod → ℚ → ℚ
  | ElwMod.NOT, x => if x = 0 then 1 else 0
  | _, x => x

/-- Embeds the two-operand instance of `_elwise` / `_elwise_apply`: one
`apply(builtin.Elemwise(mode), a, b)` call.  The result keeps the first
operand's dtype tag (cast-to-bool is a separate `astype` step, as in the
source). -/
def _elwise2 (mode : ElwMod) (a b : Tensor) : Tensor :=
  ⟨a.dtype, List.zipWith (ElwMod.sem2 mode) a.data b.data⟩

/-- Embeds the one-operand instance of `_elwise` / `_elwise_apply`. -/
def _elwise1 (mode : ElwMod) (a : Tensor) : Tensor :=
  ⟨a.dtype, a.data.map (ElwMod.sem1 mode)⟩

/-- Embeds `.astype(dt)` as used by the comparison operators: for `"bool"`
the data is normalized to `0`/`1`; other casts keep the data (value-changing
casts are outside the claims under study). -/
def Tensor.astype (t : Tensor) (dt : String) : Tensor :=
  if dt = "bool" then ⟨"bool", t.data.map fun x => if x = 0 then 0 else 1⟩
  else ⟨dt, t.data⟩

/-- `__lt__ = lambda self, value: _elwise(self, value, mode=LT).astype("bool")`. -/
def Tensor.lt_cmp (self value : Tensor) : Tensor :=
  (_elwise2 ElwMod.LT self value).astype "bool"

/-- `__le__ = lambda self, value: _elwise(self, value, mode=LEQ).astype("bool")`. -/
def Tensor.le_cmp (self value : Tensor) : Tensor :=
  (_elwise2 ElwMod.LEQ self value).astype "bool"

/-- `__gt__ = lambda self, value: _elwise(value, self, mode=LT).astype("bool")`. -/
def Tensor.gt_cmp (self value : Tensor) : Tensor :=
  (_elwise2 ElwMod.LT value self).astype "bool"

/-- `__ge__ = lambda self, value: _elwise(value, self, mode=LEQ).astype("bool")`. -/
def Tensor.ge_cmp (self value : Tensor) : Tensor :=
  (_elwise2 ElwMod.LEQ value self).astype "bool"

/-- One primitive invocation issued through `apply(...)`, for trace-level
statements about how many primitives an operator dispatches to. -/
inductive PrimOp where
  | elemwise (mode : ElwMod)
  | reduceAll (mode : String)
  | reduceAxis (mode : String) (axis : ℤ) (keepdim : Bool)
  deriving DecidableEq, Repr

/-- Embeds `_logical_binary_elwise(mode, rev)` (array_method.py lines
403-418): check both dtypes are bool, else raise `TypeError` naming the mode;
otherwise exactly one `Elemwise` primitive, operands swapped when `rev`.
Returns the result together with the trace of issued primitives. -/
def _logical_binary_elwise (mode : ElwMod) (rev : Bool) (self value : Tensor) :
    Except String (Tensor × List PrimOp) :=
  if rev = false then
    if self.dtype ≠ "bool" ∨ value.dtype ≠ "bool" then
      Except.error (mode.fmt ++ " requires 2 bool tensors")
    else
      Except.ok (_elwise2 mode self value, [PrimOp.elemwise mode])
  else
    if self.dtype ≠ "bool" ∨ value.dtype ≠ "bool" then
      Except.error (mode.fmt ++ " requires 2 bool tensors")
    else
      Except.ok (_elwise2 mode value self, [PrimOp.elemwise mode])

/-- Embeds `_logical_unary_elwise(mode, rev)` (array_method.py lines
394-400): check the receiver's dtype is bool, else `TypeError` naming the
mode; otherwise one `Elemwise` primitive. -/
def _logical_unary_elwise (mode : ElwMod) (self : Tensor) :
    Except String (Tensor × List PrimOp) :=
  if self.dtype ≠ "bool" then
    Except.error (mode.fmt ++ " requires a bool tensor")
  else
    Except.ok (_elwise1 mode self, [PrimOp.elemwise mode])

/-! ## array_method.py: reductions -/

/-- The shape information of a tensor that `_reduce` consults (`self.ndim`). -/
structure RTensor where
  ndim : ℕ
  deriving DecidableEq, Repr

/-- The `axis` argument of a reduction: `None`, a single (possibly negative)
integer, or an iterable of integers. -/
inductive AxisArg where
  | noneAxis
  | single (a : ℤ)
  | iterAxes (as : List ℤ)
  deriving DecidableEq, Repr

/-- Modelled from the spec: `_normalize_axis` lives in
megengine/core/tensor/utils.py, which is not under src/.  Per the spec,
reductions "normalize axes against current rank in descending order":
negative axes are shifted by the rank, and with `reverse=True` the result is
sorted into descending order. -/
def _normalize_axis (ndim : ℕ) (axes : List ℤ) (reverse : Bool) : List ℤ :=
  let shifted := axes.map fun a => if a < 0 then a + (ndim : ℤ) else a
  if reverse then List.insertionSort (fun x y => x ≥ y) shifted
  else List.insertionSort (fun x y => x ≤ y) shifted

/-- Shape effect of one `builtin.Reduce(mode, axis, keepdim)` invocation. -/
def reduceStep (keepdims : Bool) (t : RTensor) (_axis : ℤ) : RTensor :=
  if keepdims then t else ⟨t.ndim - 1⟩

/-- Embeds `_reduce(mode)` (array_method.py lines 421-440), tracking the
issued reduction primitives:
`axis=None` asserts `not keepdims` then issues one axis-free `Reduce`;
an iterable axis is normalized (descending) and one `Reduce` is issued per
normalized axis; a single axis is passed through to one `Reduce` directly. -/
def _reduce (mode : String) (self : RTensor) (axis : AxisArg) (keepdims : Bool) :
    Except String (RTensor × List PrimOp) :=
  match axis with
  | AxisArg.noneAxis =>
    if keepdims then Except.error "can not set axis=None and keepdims=True"
    else Except.ok (⟨0⟩, [PrimOp.reduceAll mode])
  | AxisArg.iterAxes as =>
    let as' := _normalize_axis self.ndim as true
    Except.ok (as'.foldl (reduceStep keepdims) self,
      as'.map fun ai => PrimOp.reduceAxis mode ai keepdims)
  | AxisArg.single a =>
    Except.ok (reduceStep keepdims self a, [PrimOp.reduceAxis mode a keepdims])

/-- `Tensor.sum` (array_method.py line 655). -/
def RTensor.sum (self : RTensor) (axis : AxisArg) (keepdims : Bool) :=
  _reduce "sum" self axis keepdims

/-- `Tensor.prod` (array_method.py line 659); note the primitive mode string
is "product". -/
def RTensor.prod (self : RTensor) (axis : AxisArg) (keepdims : Bool) :=
  _reduce "product" self axis keepdims

/-- `Tensor.min` (array_method.py line 663). -/
def RTensor.min (self : RTensor) (axis : AxisArg) (keepdims : Bool) :=
  _reduce "min" self axis keepdims

/-- `Tensor.max` (array_method.py line 667). -/
def RTensor.max (self : RTensor) (axis : AxisArg) (keepdims : Bool) :=
  _reduce "max" self axis keepdims

/-- `Tensor.mean` (array_method.py line 671). -/
def RTensor.mean (self : RTensor) (axis : AxisArg) (keepdims : Bool) :=
  _reduce "mean" self axis keepdims

/-! ## Theorems -/

/-- Helper: the `quint8` catalog entry, fields evaluated. -/
theorem quint8Meta_eq :
    quint8Meta = ⟨"quint8", some "Quantized8Asymm", "uint8", 0, 255, true⟩ := rfl

/-- Helper: the `qint8` catalog entry, fields evaluated. -/
theorem qint8Meta_eq :
    qint8Meta = ⟨"qint8", some "QuantizedS8", "int8", -128, 127, false⟩ := rfl

/-- Helper: the `qint8_narrow` catalog entry, fields evaluated. -/
theorem qint8_narrowMeta_eq :
    qint8_narrowMeta = ⟨"qint8_narrow", some "QuantizedS8", "int8", -127, 127, false⟩ := rfl

/-- C1: matmul dispatch-path selection is a pure function of the operand
ranks and the first transpose flag: for ranks `d1, d2 ≥ 1`, `_matmul`
dispatches to the dot-product primitive iff `d1 = 1 ∧ d2 = 1`; to the plain
matrix-multiply path iff (not the dot case and) `max d1 d2 ≤ 2` or
(`d2 ≤ 2` and `transpose_a` is false); and to the batched matrix-multiply
path in every remaining case.  The second transpose flag never changes the
selected path. -/
theorem matmul_dispatch_C1 (d1 d2 : ℕ) (ta tb : Bool)
    (h1 : 1 ≤ d1) (h2 : 1 ≤ d2) :
    (_matmul_dispatch d1 d2 ta tb = MatmulPath.dot ↔ d1 = 1 ∧ d2 = 1) ∧
    (_matmul_dispatch d1 d2 ta tb = MatmulPath.matrixMul ↔
      ¬(d1 = 1 ∧ d2 = 1) ∧ (max d1 d2 ≤ 2 ∨ (d2 ≤ 2 ∧ ta = false))) ∧
    (_matmul_dispatch d1 d2 ta tb = MatmulPath.batchedMatrixMul ↔
      ¬(d1 = 1 ∧ d2 = 1) ∧ ¬(max d1 d2 ≤ 2 ∨ (d2 ≤ 2 ∧ ta = false))) ∧
    (∀ tb2 : Bool, _matmul_dispatch d1 d2 ta tb2 = _matmul_dispatch d1 d2 ta tb) := by
  have hmax : (if d1 > d2 then d1 else d2) = max d1 d2 := by
    split <;> omega
  refine ⟨?_, ?_, ?_, fun tb2 => rfl⟩ <;>
    · simp only [_matmul_dispatch, hmax]
      split_ifs <;> simp_all

/-- C1 witness: at `d1 = 3, d2 = 2, transpose_a = false`, the plain
matrix-multiply path is selected and the characterization holds. -/
theorem matmul_dispatch_C1_witness :
    _matmul_dispatch 3 2 false false = MatmulPath.matrixMul ∧
    _matmul_dispatch 3 3 true false = MatmulPath.batchedMatrixMul := by
  constructor
  · exact (matmul_dispatch_C1 3 2 false false (by decide) (by decide)).2.1.mpr
      (by decide)
  · exact (matmul_dispatch_C1 3 3 true false (by decide) (by decide)).2.2.1.mpr
      (by decide)

/-- C3 counterexample: the claim says `create_quantized_dtype` with a signed
descriptor (`qint8`) and a non-None zero point fails; on the code it instead
succeeds, silently dropping the zero point from the stamped metadata. -/
theorem signed_zp_C3_counterexample :
    create_quantized_dtype qint8Meta 1 (some 5) =
      Except.ok ⟨"int8", some ⟨"QuantizedS8", 1, none⟩⟩ := by
  rfl

/-- C3 amended: for every signed descriptor that has a `cname` and every
zero-point argument (None or not), `create_quantized_dtype` succeeds and
stamps metadata that carries no zero point: a non-None zero point is silently
ignored, not rejected. -/
theorem signed_zp_C3 (dtype_meta : QuantDtypeMeta) (scale : ℚ) (zp : Option ℚ)
    (cn : String) (hc : dtype_meta.cname = some cn)
    (hs : dtype_meta.is_unsigned = false) :
    create_quantized_dtype dtype_meta scale zp =
      Except.ok ⟨dtype_meta.np_dtype_str, some ⟨cn, scale, none⟩⟩ := by
  simp [create_quantized_dtype, hc, hs]

/-- C3 witness: `qint8` with zero point `5` succeeds, metadata without a
zero point. -/
theorem signed_zp_C3_witness :
    create_quantized_dtype qint8Meta 1 (some 5) =
      Except.ok ⟨"int8", some ⟨"QuantizedS8", 1, none⟩⟩ :=
  signed_zp_C3 qint8Meta 1 (some 5) "QuantizedS8" (by decide) (by decide)

/-- C7: for all tensors `a`, `b`, the comparison `a > b` produces the same
result as `b < a`, and `a >= b` the same result as `b <= a`: the
greater-than forms swap operand order into the less-than elementwise
primitive and cast to bool. -/
theorem compare_swap_C7 (a b : Tensor) :
    Tensor.gt_cmp a b = Tensor.lt_cmp b a ∧
    Tensor.ge_cmp a b = Tensor.le_cmp b a :=
  ⟨rfl, rfl⟩

/-- C10: for every reduction (`sum`, `prod`, `min`, `max`, `mean`), an empty
iterable of axes returns the input tensor unchanged and issues no reduction
primitive, whatever `keepdims` is. -/
theorem reduce_empty_axes_C10 (t : RTensor) (keepdims : Bool) :
    t.sum (AxisArg.iterAxes []) keepdims = Except.ok (t, []) ∧
    t.prod (AxisArg.iterAxes []) keepdims = Except.ok (t, []) ∧
    t.min (AxisArg.iterAxes []) keepdims = Except.ok (t, []) ∧
    t.max (AxisArg.iterAxes []) keepdims = Except.ok (t, []) ∧
    t.mean (AxisArg.iterAxes []) keepdims = Except.ok (t, []) :=
  ⟨rfl, rfl, rfl, rfl, rfl⟩

/-- C6: for every reduction mode (instantiated as "sum", "product", "min",
"max", "mean" by the five methods): `axis=None, keepdims=True` is a usage
error; `axis=None, keepdims=False` reduces in a single axis-free primitive
call; an iterable of axes is first normalized against the tensor's rank into
descending order and then one single-axis reduction primitive is issued per
normalized axis (right-to-left, i.e. largest axis first, so earlier
reductions do not shift the remaining axes); a single (possibly negative)
axis issues exactly one reduction primitive. -/
theorem reduce_dispatch_C6 (mode : String) (t : RTensor) (keepdims : Bool) :
    (_reduce mode t AxisArg.noneAxis true =
      Except.error "can not set axis=None and keepdims=True") ∧
    (_reduce mode t AxisArg.noneAxis false =
      Except.ok (⟨0⟩, [PrimOp.reduceAll mode])) ∧
    (∀ as : List ℤ, ∃ r : RTensor,
      _reduce mode t (AxisArg.iterAxes as) keepdims =
        Except.ok (r, (_normalize_axis t.ndim as true).map
          fun ai => PrimOp.reduceAxis mode ai keepdims) ∧
      List.Sorted (fun x y : ℤ => x ≥ y) (_normalize_axis t.ndim as true) ∧
      (_normalize_axis t.ndim as true).length = as.length) ∧
    (∀ a : ℤ, _reduce mode t (AxisArg.single a) keepdims =
      Except.ok (reduceStep keepdims t a, [PrimOp.reduceAxis mode a keepdims])) := by
  refine ⟨rfl, rfl, fun as => ?_, fun a => rfl⟩
  refine ⟨(_normalize_axis t.ndim as true).foldl (reduceStep keepdims) t, rfl, ?_, ?_⟩
  · unfold _normalize_axis
    simp only [if_pos]
    exact List.sorted_insertionSort _ _
  · unfold _normalize_axis
    simp [List.length_insertionSort]

/-- C8: each logical binary operator (`&`, `|`, `^`; modes AND, OR, XOR),
in direct or reflected form, raises a type error naming the operator when
either operand dtype is not bool, and dispatches to exactly one elementwise
primitive when both are bool; the logical unary operator (`~`, mode NOT)
likewise raises a type error when the receiver dtype is not bool. -/
theorem logical_dtype_check_C8 (mode : ElwMod)
    (hm : mode = ElwMod.AND ∨ mode = ElwMod.OR ∨ mode = ElwMod.XOR)
    (rev : Bool) (self value : Tensor) :
    ((self.dtype ≠ "bool" ∨ value.dtype ≠ "bool") →
      _logical_binary_elwise mode rev self value =
        Except.error (mode.fmt ++ " requires 2 bool tensors")) ∧
    (self.dtype = "bool" → value.dtype = "bool" →
      _logical_binary_elwise mode rev self value =
        Except.ok (_elwise2 mode (if rev then value else self)
          (if rev then self else value), [PrimOp.elemwise mode])) ∧
    (self.dtype ≠ "bool" →
      _logical_unary_elwise ElwMod.NOT self =
        Except.error (ElwMod.NOT.fmt ++ " requires a bool tensor")) ∧
    (self.dtype = "bool" →
      _logical_unary_elwise ElwMod.NOT self =
        Except.ok (_elwise1 ElwMod.NOT self, [PrimOp.elemwise ElwMod.NOT])) := by
  refine ⟨fun hbad => ?_, fun hs hv => ?_, fun hbad => ?_, fun hs => ?_⟩
  · unfold _logical_binary_elwise
    cases rev <;> simp_all
  · unfold _logical_binary_elwise
    cases rev <;> simp_all
  · unfold _logical_unary_elwise
    simp_all
  · unfold _logical_unary_elwise
    simp_all

/-- C8 witness: AND on a bool and a float32 tensor raises the type error;
AND on two bool tensors dispatches one Elemwise primitive; NOT on a float32
tensor raises; NOT on a bool tensor dispatches. -/
theorem logical_dtype_check_C8_witness :
    (_logical_binary_elwise ElwMod.AND false ⟨"bool", [1]⟩ ⟨"float32", [1]⟩ =
      Except.error "Elemwise.Mode.AND requires 2 bool tensors") ∧
    (_logical_binary_elwise ElwMod.AND false ⟨"bool", [1]⟩ ⟨"bool", [0]⟩ =
      Except.ok (_elwise2 ElwMod.AND ⟨"bool", [1]⟩ ⟨"bool", [0]⟩,
        [PrimOp.elemwise ElwMod.AND])) ∧
    (_logical_unary_elwise ElwMod.NOT ⟨"float32", [1]⟩ =
      Except.error "Elemwise.Mode.NOT requires a bool tensor") := by
  refine ⟨?_, ?_, ?_⟩
  · exact (logical_dtype_check_C8 ElwMod.AND (Or.inl rfl) false
      ⟨"bool", [1]⟩ ⟨"float32", [1]⟩).1 (by simp)
  · have h := (logical_dtype_check_C8 ElwMod.AND (Or.inl rfl) false
      ⟨"bool", [1]⟩ ⟨"bool", [0]⟩).2.1 rfl rfl
    simpa using h
  · exact (logical_dtype_check_C8 ElwMod.AND (Or.inl rfl) false
      ⟨"float32", [1]⟩ ⟨"float32", [1]⟩).2.2.1 (by simp)

/-- C2: for every float array and every matching quantized target dtype
(stamped name equal to the descriptor's `cname`), quantization computes per
element `round(v / scale) + zero_point` for unsigned descriptors and
`round(v / scale)` for signed ones, clips to `[qmin, qmax]` and casts;
dequantization computes `(v - zero_point) * scale` (unsigned) or
`v * scale` (signed), producing a float array. -/
theorem quant_convert_affine_C2 (dtype_meta : QuantDtypeMeta) (arr : List ℚ)
    (arr2 : List ℤ) (d : NpDtype) (md : MgbDtypeMetadata)
    (hmd : d.metadata = some md) (hname : some md.name = dtype_meta.cname) :
    (dtype_meta.is_unsigned = true → ∀ zp : ℤ, md.zero_point = some zp →
      _convert_to_quantized_dtype arr d dtype_meta =
        Except.ok (arr.map fun v =>
          clip (roundHalfEven (v / md.scale) + zp) dtype_meta.qmin dtype_meta.qmax)) ∧
    (dtype_meta.is_unsigned = false →
      _convert_to_quantized_dtype arr d dtype_meta =
        Except.ok (arr.map fun v =>
          clip (roundHalfEven (v / md.scale)) dtype_meta.qmin dtype_meta.qmax)) ∧
    (dtype_meta.is_unsigned = true → ∀ zp : ℤ, md.zero_point = some zp →
      _convert_from_quantized_dtype arr2 d dtype_meta =
        Except.ok (arr2.map fun v => ((v : ℚ) - (zp : ℚ)) * md.scale)) ∧
    (dtype_meta.is_unsigned = false →
      _convert_from_quantized_dtype arr2 d dtype_meta =
        Except.ok (arr2.map fun v => (v : ℚ) * md.scale)) := by
  refine ⟨fun hu zp hzp => ?_, fun hs => ?_, fun hu zp hzp => ?_, fun hs => ?_⟩ <;>
    simp [_convert_to_quantized_dtype, _convert_from_quantized_dtype,
      hmd, hname, *]

/-- C2 witness: for a quint8-stamped dtype with scale 1/10 and zero point 128,
`[1/4]` quantizes to `[130]` (round-half-even of 2.5 is 2, plus 128) and
`[131]` dequantizes to `[3/10]`. -/
theorem quant_convert_affine_C2_witness :
    _convert_to_quantized_dtype [1/4] ⟨"uint8", some ⟨"Quantized8Asymm", 1/10, some 128⟩⟩
        quint8Meta = Except.ok [130] ∧
    _convert_from_quantized_dtype [131] ⟨"uint8", some ⟨"Quantized8Asymm", 1/10, some 128⟩⟩
        quint8Meta = Except.ok [3/10] := by
  have h := quant_convert_affine_C2 quint8Meta [1/4] [131]
    ⟨"uint8", some ⟨"Quantized8Asymm", 1/10, some 128⟩⟩
    ⟨"Quantized8Asymm", 1/10, some 128⟩ rfl rfl
  refine ⟨?_, ?_⟩
  · have h1 := h.1 rfl 128 rfl
    rw [h1, quint8Meta_eq]
    have hq : ((1/4 : ℚ) / (1/10)) = 5/2 := by norm_num
    have hr : roundHalfEven (5/2 : ℚ) = 2 := by rw [roundHalfEven]; norm_num
    simp only [List.map_cons, List.map_nil, hq, hr]
    rfl
  · have h3 := h.2.2.1 rfl 128 rfl
    rw [h3]
    norm_num

/-- C9 (implicit): conversion validation compares only the stamped
external-format name, not the catalog entry, so `convert_to_qint8` accepts a
dtype created from the `qint8_narrow` descriptor (same cname "QuantizedS8")
without error and clips with qint8's `[-128, 127]` range instead of
qint8_narrow's `[-127, 127]`. -/
theorem narrow_alias_C9 (s : ℚ) (d : NpDtype) (arr : List ℚ)
    (hd : create_quantized_dtype qint8_narrowMeta s none = Except.ok d) :
    convert_to_qint8 arr d =
      Except.ok (arr.map fun v =>
        clip (roundHalfEven (v / s)) qint8Meta.qmin qint8Meta.qmax) ∧
    qint8Meta.qmin < qint8_narrowMeta.qmin := by
  have hd' : d = ⟨"int8", some ⟨"QuantizedS8", s, none⟩⟩ := by
    have : create_quantized_dtype qint8_narrowMeta s none =
        Except.ok ⟨"int8", some ⟨"QuantizedS8", s, none⟩⟩ := rfl
    rw [this] at hd
    exact (Except.ok.injEq _ _).mp hd.symm
  subst hd'
  constructor
  · simp [convert_to_qint8, _convert_to_quantized_dtype, qint8Meta_eq]
  · decide

/-- C9 witness: with scale 1 the value -200.0 converts through a
qint8_narrow-stamped dtype to -128, which lies outside qint8_narrow's own
range `[-127, 127]`. -/
theorem narrow_alias_C9_witness :
    convert_to_qint8 [-200] ⟨"int8", some ⟨"QuantizedS8", 1, none⟩⟩ =
      Except.ok [-128] ∧ (-128 : ℤ) < -127 := by
  refine ⟨?_, by norm_num⟩
  have h := (narrow_alias_C9 1 ⟨"int8", some ⟨"QuantizedS8", 1, none⟩⟩ [-200] rfl).1
  rw [h, qint8Meta_eq]
  have hr : roundHalfEven ((-200 : ℚ) / 1) = -200 := by rw [roundHalfEven]; norm_num
  simp only [List.map_cons, List.map_nil, hr]
  rfl

/-- Helper: round-half-to-even of an integer is the integer itself. -/
theorem roundHalfEven_intCast (k : ℤ) : roundHalfEven (k : ℚ) = k := by
  rw [roundHalfEven]
  simp [Int.floor_intCast]

/-- C4: `create_quantized_dtype` fails for every descriptor without a
`cname`; for every unsigned descriptor (with a cname) it fails iff the
supplied zero point is None, non-integral, or outside `[qmin, qmax]`, and on
a valid integral zero point in range it returns a dtype stamped with
`{name := cname, scale, zero_point}`. -/
theorem create_quantized_dtype_C4 (dtype_meta : QuantDtypeMeta) (scale : ℚ)
    (zp : Option ℚ) :
    (dtype_meta.cname = none →
      ∃ e, create_quantized_dtype dtype_meta scale zp = Except.error e) ∧
    (∀ cn : String, dtype_meta.cname = some cn → dtype_meta.is_unsigned = true →
      ((∃ e, create_quantized_dtype dtype_meta scale zp = Except.error e) ↔
        (zp = none ∨ (∃ z : ℚ, zp = some z ∧ z.den ≠ 1) ∨
          (∃ z : ℚ, zp = some z ∧ z.den = 1 ∧
            (z.num < dtype_meta.qmin ∨ dtype_meta.qmax < z.num)))) ∧
      (∀ z : ℚ, zp = some z → z.den = 1 →
        dtype_meta.qmin ≤ z.num → z.num ≤ dtype_meta.qmax →
        create_quantized_dtype dtype_meta scale zp =
          Except.ok ⟨dtype_meta.np_dtype_str, some ⟨cn, scale, some z.num⟩⟩)) := by
  refine ⟨fun hc => ⟨"dtype {} without cname attr is not supported.",
      by simp [create_quantized_dtype, hc]⟩,
    fun cn hc hu => ?_⟩
  have key : ∀ z : ℚ, create_quantized_dtype dtype_meta scale (some z) =
      if z.den = 1 then
        if z.num < dtype_meta.qmin ∨ dtype_meta.qmax < z.num then
          Except.error ("zero_point should be within [" ++ toString dtype_meta.qmin ++
            ", " ++ toString dtype_meta.qmax ++ "] for " ++ dtype_meta.name)
        else Except.ok ⟨dtype_meta.np_dtype_str, some ⟨cn, scale, some z.num⟩⟩
      else Except.error "zero_point should be an integer" := by
    intro z
    simp only [create_quantized_dtype, hc, hu, _check_zero_point, gt_iff_lt]
    by_cases hden : z.den = 1 <;>
      by_cases hr : z.num < dtype_meta.qmin ∨ dtype_meta.qmax < z.num <;>
        simp [hden, hr]
  refine ⟨?_, ?_⟩
  · cases zp with
    | none => simp [create_quantized_dtype, hc, hu]
    | some z =>
      rw [key z]
      by_cases hden : z.den = 1 <;>
        by_cases hr : z.num < dtype_meta.qmin ∨ dtype_meta.qmax < z.num <;>
          simp [hden, hr]
  · intro z hz hden h1 h2
    subst hz
    rw [key z]
    have hr : ¬(z.num < dtype_meta.qmin ∨ dtype_meta.qmax < z.num) := by omega
    simp [hden, hr]

/-- C4 witness: `quint2` (no cname) fails; `quint8` with zero point -1 fails
(range); `quint8` with zero point 3/2 fails (non-integral); `quint8` with
zero point 128 succeeds with stamped metadata. -/
theorem create_quantized_dtype_C4_witness :
    (∃ e, create_quantized_dtype quint2Meta 1 (some 0) = Except.error e) ∧
    (∃ e, create_quantized_dtype quint8Meta 1 (some (-1)) = Except.error e) ∧
    (∃ e, create_quantized_dtype quint8Meta 1 (some (3/2)) = Except.error e) ∧
    create_quantized_dtype quint8Meta (1/10) (some 128) =
      Except.ok ⟨"uint8", some ⟨"Quantized8Asymm", 1/10, some 128⟩⟩ := by
  refine ⟨(create_quantized_dtype_C4 quint2Meta 1 (some 0)).1 rfl, ?_, ?_, ?_⟩
  · refine ((create_quantized_dtype_C4 quint8Meta 1 (some (-1))).2 "Quantized8Asymm"
      rfl rfl).1.mpr ?_
    refine Or.inr (Or.inr ⟨-1, rfl, by norm_num, Or.inl ?_⟩)
    rw [quint8Meta_eq]
    norm_num
  · refine ((create_quantized_dtype_C4 quint8Meta 1 (some (3/2))).2 "Quantized8Asymm"
      rfl rfl).1.mpr ?_
    exact Or.inr (Or.inl ⟨3/2, rfl, by norm_num [Rat.den_div_eq_of_coprime]⟩)
  · have h := ((create_quantized_dtype_C4 quint8Meta (1/10) (some 128)).2
      "Quantized8Asymm" rfl rfl).2 128 rfl (by norm_num) (by rw [quint8Meta_eq]; norm_num)
      (by rw [quint8Meta_eq]; norm_num)
    simpa [quint8Meta_eq] using h

/-- C5: for `quint8` with scale 1/10 and zero point 128, converting 1.0 to
quint8 and back yields a value within scale/2 of 1.0 (in fact exactly 1.0);
and every value `scale * k` with `k` integral and `k + zero_point` within
`[qmin, qmax] = [0, 255]` round-trips exactly. -/
theorem quant_roundtrip_C5 (d : NpDtype)
    (hd : quint8 (1/10) (some 128) = Except.ok d) :
    (∃ out : List ℤ, convert_to_quint8 [1] d = Except.ok out ∧
      ∃ b : ℚ, convert_from_quint8 out d = Except.ok [b] ∧
        |b - 1| ≤ (1/10) / 2) ∧
    (∀ k : ℤ, 0 ≤ k + 128 → k + 128 ≤ 255 →
      convert_to_quint8 [(1/10 : ℚ) * (k : ℚ)] d = Except.ok [k + 128] ∧
      convert_from_quint8 [k + 128] d = Except.ok [(1/10 : ℚ) * (k : ℚ)]) := by
  have hD : quint8 (1/10) (some 128) =
      Except.ok (⟨"uint8", some ⟨"Quantized8Asymm", 1/10, some 128⟩⟩ : NpDtype) := by
    rfl
  rw [hD] at hd
  have hd' : d = ⟨"uint8", some ⟨"Quantized8Asymm", 1/10, some 128⟩⟩ :=
    (Except.ok.injEq _ _).mp hd.symm
  subst hd'
  constructor
  · refine ⟨[138], ?_, 1, ?_, by norm_num⟩
    · simp only [convert_to_quint8, _convert_to_quantized_dtype, quint8Meta_eq]
      have hq : ((1 : ℚ) / (1/10)) = ((10 : ℤ) : ℚ) := by norm_num
      simp only [List.map_cons, List.map_nil]
      rw [hq, roundHalfEven_intCast]
      rfl
    · simp only [convert_from_quint8, _convert_from_quantized_dtype, quint8Meta_eq]
      norm_num
  · intro k h1 h2
    constructor
    · simp only [convert_to_quint8, _convert_to_quantized_dtype, quint8Meta_eq]
      have hq : ((1/10 : ℚ) * (k : ℚ)) / (1/10) = ((k : ℤ) : ℚ) := by
        field_simp
      simp only [List.map_cons, List.map_nil]
      rw [hq, roundHalfEven_intCast]
      have hclip : clip (k + 128) 0 255 = k + 128 := by
        unfold clip
        omega
      simp [hclip]
    · simp [convert_from_quint8, _convert_from_quantized_dtype, quint8Meta_eq]
      ring

/-- C5 witness: with the quint8 dtype at scale 1/10, zero point 128, the
exactly-representable value `(1/10) * 3` quantizes to 131 and dequantizes
back to `(1/10) * 3` exactly. -/
theorem quant_roundtrip_C5_witness :
    convert_to_quint8 [(1/10 : ℚ) * ((3 : ℤ) : ℚ)]
        ⟨"uint8", some ⟨"Quantized8Asymm", 1/10, some 128⟩⟩ =
      Except.ok [3 + 128] ∧
    convert_from_quint8 [3 + 128]
        ⟨"uint8", some ⟨"Quantized8Asymm", 1/10, some 128⟩⟩ =
      Except.ok [(1/10 : ℚ) * ((3 : ℤ) : ℚ)] :=
  (quant_roundtrip_C5 ⟨"uint8", some ⟨"Quantized8Asymm", 1/10, some 128⟩⟩
    (by rfl)).2 3 (by norm_num) (by norm_num)

end MegEngine
